import Mathlib

/-!
Verification development for the contact-management service
(`src/entity/models.py`, `src/schemas/contact.py`,
`src/repository/contacts.py`, `src/routes/contacts.py`).

The database is modelled as a `List Contact` of stored rows (storage
order = list order).  SQLAlchemy query combinators are embedded as the
corresponding list operations; PostgreSQL `ILIKE` is embedded by an
executable implementation of the SQL `LIKE` pattern matcher over
lower-cased character codes.

A central fact of this codebase: the ORM model `Contact` in
`src/entity/models.py` declares its mapped columns as `birthdate` and
`aditional_data`, while the pydantic schemas, the repository and the
routes all use the names `birthday` and `extra_info`.  Python-level
keyword binding and attribute lookup are therefore modelled by name, so
that this mismatch is visible in the embedding.
-/

/-- Calendar date, modelling Python `datetime.date`. -/
structure PyDate where
  year : Nat
  month : Nat
  day : Nat
deriving DecidableEq, Repr

/-- The `Contact` ORM entity of `src/entity/models.py`: mapped columns
`id` (primary key), `first_name`, `last_name`, `email` (unique),
`phone` (unique), `birthdate` (not null), `aditional_data` (nullable).
Note the column names `birthdate` and `aditional_data`. -/
structure Contact where
  id : Nat
  first_name : String
  last_name : String
  email : String
  phone : String
  birthdate : PyDate
  aditional_data : Option String
deriving DecidableEq, Repr

/-- The names of the mapped attributes of the `Contact` ORM class, in
declaration order, exactly as in `src/entity/models.py`. -/
def contactMappedAttrs : List String :=
  ["id", "first_name", "last_name", "email", "phone", "birthdate", "aditional_data"]

/-- A python value passed as a keyword argument or assigned by
`setattr`: a string, a date, or an optional string. -/
inductive Val where
  | s (v : String)
  | d (v : PyDate)
  | o (v : Option String)
  | n (v : Nat)
deriving DecidableEq, Repr

/-- `ContactSchema` of `src/schemas/contact.py`: the request body of the
create operation.  Field names are `birthday` and `extra_info`. -/
structure ContactSchema where
  first_name : String
  last_name : String
  email : String
  phone : String
  birthday : PyDate
  extra_info : Option String
deriving DecidableEq, Repr

/-- `body.model_dump()`: the key/value pairs of a `ContactSchema`, in
field declaration order.  The keys are the schema field names. -/
def ContactSchema.dump (b : ContactSchema) : List (String × Val) :=
  [("first_name", Val.s b.first_name), ("last_name", Val.s b.last_name),
   ("email", Val.s b.email), ("phone", Val.s b.phone),
   ("birthday", Val.d b.birthday), ("extra_info", Val.o b.extra_info)]

/-- A `Contact` instance under construction: every mapped column is
still unset (`none`) until a keyword argument binds it. -/
structure ContactDraft where
  id : Option Nat := none
  first_name : Option String := none
  last_name : Option String := none
  email : Option String := none
  phone : Option String := none
  birthdate : Option PyDate := none
  aditional_data : Option (Option String) := none
deriving DecidableEq, Repr

/-- Binding of one keyword argument by the SQLAlchemy declarative
constructor: a keyword whose name is a mapped attribute sets that
attribute; any other keyword raises
`TypeError: <k> is an invalid keyword argument for Contact`. -/
def bindKwarg (dr : ContactDraft) (k : String) (v : Val) : Except String ContactDraft :=
  match k, v with
  | "id", Val.n x => Except.ok {dr with id := some x}
  | "first_name", Val.s x => Except.ok {dr with first_name := some x}
  | "last_name", Val.s x => Except.ok {dr with last_name := some x}
  | "email", Val.s x => Except.ok {dr with email := some x}
  | "phone", Val.s x => Except.ok {dr with phone := some x}
  | "birthdate", Val.d x => Except.ok {dr with birthdate := some x}
  | "aditional_data", Val.o x => Except.ok {dr with aditional_data := some x}
  | k, _ => Except.error (k ++ " is an invalid keyword argument for Contact")

/-- Binding of a whole keyword-argument list, first failure wins
(`Contact(**body.model_dump())`). -/
def bindKwargs : ContactDraft → List (String × Val) → Except String ContactDraft
  | dr, [] => Except.ok dr
  | dr, (k, v) :: rest =>
    match bindKwarg dr k v with
    | Except.ok dr2 => bindKwargs dr2 rest
    | Except.error e => Except.error e

/-- Flushing a freshly constructed draft to the database: the NOT NULL
columns must be set, the unique constraints on `email` and `phone` must
hold against the stored rows, and the primary key is server-generated
(one more than the largest stored id).  Returns the persisted row and
the new table contents. -/
def flushNew (db : List Contact) (dr : ContactDraft) : Except String (Contact × List Contact) :=
  match dr.first_name, dr.last_name, dr.email, dr.phone, dr.birthdate with
  | some fn, some ln, some em, some ph, some bd =>
    if db.any (fun c => c.email == em) then
      Except.error "duplicate key value violates unique constraint on email"
    else if db.any (fun c => c.phone == ph) then
      Except.error "duplicate key value violates unique constraint on phone"
    else
      let newId := (db.map (fun c => c.id)).foldl Nat.max 0 + 1
      let row : Contact :=
        { id := newId, first_name := fn, last_name := ln, email := em,
          phone := ph, birthdate := bd,
          aditional_data := (dr.aditional_data).getD none }
      Except.ok (row, db ++ [row])
  | _, _, _, _, _ => Except.error "null value in a NOT NULL column"

/-- `ContactRepository.create_contact`: constructs
`Contact(**body.model_dump())` and commits it.  An error leaves the
stored rows unchanged. -/
def create_contact (db : List Contact) (body : ContactSchema) :
    Except String (Contact × List Contact) :=
  match bindKwargs {} body.dump with
  | Except.ok dr => flushNew db dr
  | Except.error e => Except.error e

/-- The table contents after a create call: the new table on success,
the old one when the call fails. -/
def createState (db : List Contact) (body : ContactSchema) : List Contact :=
  match create_contact db body with
  | Except.ok (_, db2) => db2
  | Except.error _ => db

/-- `ContactRepository.get_contacts`: `select(Contact).offset(offset).limit(limit)`
over the stored rows in storage order. -/
def get_contacts (db : List Contact) (limit offset : Nat) : List Contact :=
  (db.drop offset).take limit

/-- `ContactRepository.get_contact_by_id`:
`select(Contact).filter_by(id=contact_id)` with `scalar_one_or_none()`;
the primary key makes the match unique. -/
def get_contact_by_id (db : List Contact) (contact_id : Nat) : Option Contact :=
  db.find? (fun c => c.id == contact_id)

/-- `ContactUpdateSchema` of `src/schemas/contact.py`: every field
optional; `none` models a field the request body did not set. -/
structure ContactUpdateSchema where
  first_name : Option String := none
  last_name : Option String := none
  email : Option String := none
  phone : Option String := none
  birthday : Option PyDate := none
  extra_info : Option String := none
deriving DecidableEq, Repr

/-- `body.model_dump(exclude_unset=True)`: the key/value pairs of the
fields the request actually supplied, in field declaration order. -/
def ContactUpdateSchema.dumpExcludeUnset (b : ContactUpdateSchema) : List (String × Val) :=
  (match b.first_name with | some x => [("first_name", Val.s x)] | none => []) ++
  (match b.last_name with | some x => [("last_name", Val.s x)] | none => []) ++
  (match b.email with | some x => [("email", Val.s x)] | none => []) ++
  (match b.phone with | some x => [("phone", Val.s x)] | none => []) ++
  (match b.birthday with | some x => [("birthday", Val.d x)] | none => []) ++
  (match b.extra_info with | some x => [("extra_info", Val.o x)] | none => [])

/-- Persistent effect of `setattr(contact, key, value)` on an ORM
instance: assigning a mapped attribute changes that column; assigning
any other name creates a transient Python attribute that is never
flushed, so the persisted row is unchanged.  (The update-schema keys
`birthday` and `extra_info` are not mapped attributes of `Contact`.)
An `id` keyword cannot arise: no schema dump produces one. -/
def setattrPersist (c : Contact) (k : String) (v : Val) : Contact :=
  match k, v with
  | "first_name", Val.s x => {c with first_name := x}
  | "last_name", Val.s x => {c with last_name := x}
  | "email", Val.s x => {c with email := x}
  | "phone", Val.s x => {c with phone := x}
  | "birthdate", Val.d x => {c with birthdate := x}
  | "aditional_data", Val.o x => {c with aditional_data := x}
  | _, _ => c

/-- `ContactRepository.update_contact`: fetch by id; if absent return
`none` and leave the table unchanged; otherwise `setattr` each supplied
field on the fetched row, commit, and return the row. -/
def update_contact (db : List Contact) (contact_id : Nat) (body : ContactUpdateSchema) :
    List Contact × Option Contact :=
  match get_contact_by_id db contact_id with
  | none => (db, none)
  | some c =>
    let c2 := (body.dumpExcludeUnset).foldl (fun acc kv => setattrPersist acc kv.1 kv.2) c
    (db.map (fun x => if x.id == contact_id then c2 else x), some c2)

/-- `ContactRepository.remove_contact`: fetch by id; if present, delete
the row and return it; otherwise return `none` and leave the table
unchanged. -/
def remove_contact (db : List Contact) (contact_id : Nat) :
    List Contact × Option Contact :=
  match get_contact_by_id db contact_id with
  | none => (db, none)
  | some c => (db.filter (fun x => !(x.id == contact_id)), some c)

/-- ASCII lower-casing on character codes, modelling the PostgreSQL
`lower()` that underlies `ILIKE`. -/
def lowerN (n : Nat) : Nat := if 65 ≤ n ∧ n ≤ 90 then n + 32 else n

/-- The lower-cased character codes of a string. -/
def lowerCodes (s : String) : List Nat := s.data.map (fun c => lowerN c.toNat)

/-- The SQL `LIKE` pattern matcher over character codes: `%` (code 37)
matches any sequence, `_` (code 95) matches one character, `\` (code
92) quotes the next pattern character, anything else is literal.  A
pattern ending in a bare `\` is a PostgreSQL error, modelled as no
match (it cannot arise from the `%...%` patterns the repository
builds). -/
def anySuffix (g : List Nat → Bool) : List Nat → Bool
  | [] => g []
  | b :: t2 => g (b :: t2) || anySuffix g t2

def likeMatch : List Nat → List Nat → Bool
  | [] => fun t => t.isEmpty
  | c :: p => fun t =>
    if c = 37 then
      anySuffix (likeMatch p) t
    else if c = 95 then
      (match t with
       | [] => false
       | _ :: t2 => likeMatch p t2)
    else if c = 92 then
      (match p with
       | [] => false
       | c2 :: p2 =>
         (match t with
          | [] => false
          | d :: t2 => d == c2 && likeMatch p2 t2))
    else
      (match t with
       | [] => false
       | d :: t2 => d == c && likeMatch p t2)

/-- `column.ilike(pattern)`: case-insensitive `LIKE` — both sides are
lower-cased before matching. -/
def pgILike (hay pattern : String) : Bool :=
  likeMatch (lowerCodes pattern) (lowerCodes hay)

/-- One optional query filter of `search_contacts`: Python truthiness —
`None` and the empty string both skip the filter; otherwise the rows
are filtered by `column ILIKE pattern` where the pattern is the filter
text wrapped in `%` on both sides. -/
def applyOptFilter (field : Contact → String) (f : Option String) (l : List Contact) :
    List Contact :=
  match f with
  | none => l
  | some s => if s = "" then l else l.filter (fun c => pgILike (field c) ("%" ++ s ++ "%"))

/-- `ContactRepository.search_contacts`: the three optional filters are
applied to the select statement in source order. -/
def search_contacts (db : List Contact) (first_name last_name email : Option String) :
    List Contact :=
  applyOptFilter Contact.email email
    (applyOptFilter Contact.last_name last_name
      (applyOptFilter Contact.first_name first_name db))

/-- Gregorian leap year. -/
def isLeap (y : Nat) : Bool := (y % 4 == 0 && y % 100 != 0) || y % 400 == 0

/-- Number of days in a month of a given year. -/
def daysInMonth (y m : Nat) : Nat :=
  if m = 2 then (if isLeap y then 29 else 28)
  else if m = 4 ∨ m = 6 ∨ m = 9 ∨ m = 11 then 30
  else 31

/-- The day after a given date. -/
def nextDay (d : PyDate) : PyDate :=
  if d.day < daysInMonth d.year d.month then
    { d with day := d.day + 1 }
  else if d.month < 12 then
    { year := d.year, month := d.month + 1, day := 1 }
  else
    { year := d.year + 1, month := 1, day := 1 }

/-- `today + timedelta(days=n)`. -/
def addDays (d : PyDate) : Nat → PyDate
  | 0 => d
  | n + 1 => addDays (nextDay d) n

/-- Stable insertion of a row into a list sorted ascending by a key. -/
def insertByKey (key : Contact → Nat) (c : Contact) : List Contact → List Contact
  | [] => [c]
  | x :: xs => if key x ≤ key c then x :: insertByKey key c xs else c :: x :: xs

/-- Stable insertion sort by a key, modelling `ORDER BY key ASC`. -/
def sortByKey (key : Contact → Nat) : List Contact → List Contact
  | [] => []
  | x :: xs => insertByKey key x (sortByKey key xs)

/-- The window predicate built by `get_upcoming_birthdays` on a stored
row, given the day-of-month of today and of the window end:
`date_part(day, birthday) BETWEEN date_part(day, today) AND
date_part(day, end)` OR (the day of `end` before the day of `today` AND the
birthday day on either side of the wrap). -/
def birthdayWindowPred (dToday dEnd bd : Nat) : Bool :=
  (dToday ≤ bd && bd ≤ dEnd) || (dEnd < dToday && (dToday ≤ bd || bd ≤ dEnd))

/-- The query `get_upcoming_birthdays` would execute if the column
reference resolved: filter by the day-of-month window and order by
day-of-month ascending. -/
def birthdayQuery (db : List Contact) (today : PyDate) (days : Nat) : List Contact :=
  let endDate := addDays today days
  sortByKey (fun c => c.birthdate.day)
    (db.filter (fun c => birthdayWindowPred today.day endDate.day c.birthdate.day))

/-- Python attribute lookup `Contact.<name>` on the ORM class: a mapped
attribute resolves to itself, any other name raises `AttributeError`. -/
def contactClassAttr (name : String) : Except String String :=
  if name ∈ contactMappedAttrs then Except.ok name
  else Except.error ("type object Contact has no attribute " ++ name)

/-- `ContactRepository.get_upcoming_birthdays`: the query text refers
to `Contact.birthday`, so building the query first resolves that
attribute on the ORM class; only if that succeeds does the query run. -/
def get_upcoming_birthdays (db : List Contact) (today : PyDate) (days : Nat) :
    Except String (List Contact) :=
  match contactClassAttr "birthday" with
  | Except.ok _ => Except.ok (birthdayQuery db today days)
  | Except.error e => Except.error e

/-- An HTTP response: a status code and an optional JSON body. -/
structure HttpResp (α : Type) where
  status : Nat
  body : Option α
deriving DecidableEq, Repr

/-- Boundary validation of `GET /contacts/`: `limit` declared
`Query(10, ge=10, le=100)` and `offset` declared `Query(0, ge=0)`. -/
def listParamsValid (limit offset : Int) : Bool :=
  (10 ≤ limit && limit ≤ 100) && 0 ≤ offset

/-- Modelled from the spec: the service layer
(`src/services/contacts.py` is not among the sources; spec §4.2 states
every service method is pure delegation to the repository), here for
the remove operation. -/
def serviceRemoveContact (db : List Contact) (contact_id : Nat) :
    List Contact × Option Contact :=
  remove_contact db contact_id

/-- Modelled from the spec: the service layer
(`src/services/contacts.py` is not among the sources; spec §4.2 states
every service method is pure delegation to the repository), here for
the search operation. -/
def serviceSearchContacts (db : List Contact) (first_name last_name email : Option String) :
    List Contact :=
  search_contacts db first_name last_name email

/-- The `DELETE /contacts/<id>` route handler: calls the service,
ignores whether a row was found, and responds 204 with an empty
body. -/
def delete_contact_route (db : List Contact) (contact_id : Nat) :
    HttpResp Unit × List Contact :=
  ((HttpResp.mk 204 none), (serviceRemoveContact db contact_id).1)

/-- `ContactResponse` of `src/schemas/contact.py`: the response body
shape; `birthday` is a required field, `extra_info` has default
`None`. -/
structure ContactResponse where
  id : Nat
  first_name : String
  last_name : String
  email : String
  phone : String
  birthday : PyDate
  extra_info : Option String
deriving DecidableEq, Repr

/-- Python `getattr` on a stored `Contact` ORM row: the mapped columns
resolve (note `birthdate`, `aditional_data`); anything else is a
missing attribute. -/
def contactAttr (c : Contact) (name : String) : Option Val :=
  if name = "id" then some (Val.n c.id)
  else if name = "first_name" then some (Val.s c.first_name)
  else if name = "last_name" then some (Val.s c.last_name)
  else if name = "email" then some (Val.s c.email)
  else if name = "phone" then some (Val.s c.phone)
  else if name = "birthdate" then some (Val.d c.birthdate)
  else if name = "aditional_data" then some (Val.o c.aditional_data)
  else none

/-- Pydantic `from_attributes` validation of one `Contact` row against
`ContactResponse`: every required field must resolve to an attribute of
the row (`extra_info` falls back to its default when absent); a missing
required field is a response-validation error. -/
def contactToResponse (c : Contact) : Except String ContactResponse :=
  match contactAttr c "id", contactAttr c "first_name", contactAttr c "last_name",
      contactAttr c "email", contactAttr c "phone", contactAttr c "birthday" with
  | some (Val.n i), some (Val.s fn), some (Val.s ln), some (Val.s em),
      some (Val.s ph), some (Val.d bd) =>
    Except.ok
      { id := i, first_name := fn, last_name := ln, email := em, phone := ph,
        birthday := bd,
        extra_info :=
          match contactAttr c "extra_info" with
          | some (Val.o x) => x
          | _ => none }
  | _, _, _, _, _, _ => Except.error "response validation error: birthday field required"

/-- Validation of a whole response list, first failure wins. -/
def serializeContacts : List Contact → Except String (List ContactResponse)
  | [] => Except.ok []
  | c :: rest =>
    match contactToResponse c with
    | Except.ok r =>
      (match serializeContacts rest with
       | Except.ok rs => Except.ok (r :: rs)
       | Except.error e => Except.error e)
    | Except.error e => Except.error e

/-- The `GET /contacts/search/` route: the handler raises 404 when the
result list is falsy (empty) and otherwise returns the list, which the
framework then validates against `response_model=list[ContactResponse]`;
a response-validation failure is an internal server error (500). -/
def search_route (db : List Contact) (first_name last_name email : Option String) :
    HttpResp (List ContactResponse) :=
  let contacts := serviceSearchContacts db first_name last_name email
  if contacts.isEmpty then HttpResp.mk 404 none
  else
    match serializeContacts contacts with
    | Except.ok rs => HttpResp.mk 200 (some rs)
    | Except.error _ => HttpResp.mk 500 none

/-- Spec-side predicate: the first code list starts the second
(used to define the substring test the spec describes). -/
def isPrefOf : List Nat → List Nat → Bool
  | [], _ => true
  | _ :: _, [] => false
  | a :: as, b :: bs => b == a && isPrefOf as bs

/-- Spec-side predicate: the first code list occurs contiguously inside
the second. -/
def subOf (n : List Nat) : List Nat → Bool
  | [] => n.isEmpty
  | b :: t => isPrefOf n (b :: t) || subOf n t

/-- Spec-side predicate, following the spec glossary: the filter text
is a case-insensitive substring of the field. -/
def ciSubstring (needle hay : String) : Bool :=
  subOf (lowerCodes needle) (lowerCodes hay)

/-- The filter text contains none of the SQL LIKE metacharacters
`%` (37), `_` (95), `\` (92). -/
def noLikeMeta (s : String) : Prop :=
  ∀ c ∈ s.data, c.toNat ≠ 37 ∧ c.toNat ≠ 95 ∧ c.toNat ≠ 92

instance (s : String) : Decidable (noLikeMeta s) := by
  unfold noLikeMeta; infer_instance

/-- An optional filter that is either absent or metacharacter-free. -/
def cleanOptFilter : Option String → Prop
  | none => True
  | some s => noLikeMeta s

instance (f : Option String) : Decidable (cleanOptFilter f) := by
  unfold cleanOptFilter; cases f <;> infer_instance

/-- A code list with none of the LIKE metacharacters. -/
def cleanCodes (ns : List Nat) : Prop := ∀ n ∈ ns, n ≠ 37 ∧ n ≠ 95 ∧ n ≠ 92

/-- Spec-side meaning of one optional search filter: an absent filter
imposes no restriction; a supplied one requires the filter text to be a
case-insensitive substring of the field. -/
def specFilterMatch (f : Option String) (field : String) : Bool :=
  match f with
  | none => true
  | some s => ciSubstring s field

/-- The spec §8 example contact Alice Smith, as a stored row. -/
def contactAlice : Contact :=
  { id := 1, first_name := "Alice", last_name := "Smith", email := "alice@x.com",
    phone := "12345", birthdate := { year := 1990, month := 5, day := 1 },
    aditional_data := none }

/-- The spec §8 example contact Bob Smith, as a stored row. -/
def contactBob : Contact :=
  { id := 2, first_name := "Bob", last_name := "Smith", email := "bob@x.com",
    phone := "54321", birthdate := { year := 1990, month := 5, day := 10 },
    aditional_data := none }

/-- A stored row whose first name `ab` is matched by the LIKE wildcard
pattern built from the filter text `a_`. -/
def contactAB : Contact :=
  { id := 3, first_name := "ab", last_name := "cd", email := "ab@x.com",
    phone := "99999", birthdate := { year := 1991, month := 2, day := 3 },
    aditional_data := none }

/-- A valid create request body matching `contactAlice`. -/
def bodyAlice : ContactSchema :=
  { first_name := "Alice", last_name := "Smith", email := "alice@x.com",
    phone := "12345", birthday := { year := 1990, month := 5, day := 1 },
    extra_info := none }

/-- A partial-update request that supplies only the `birthday` field. -/
def updateBirthdayOnly : ContactUpdateSchema :=
  { birthday := some { year := 2000, month := 1, day := 2 } }

/-- A table of 15 stored contacts, for the pagination example. -/
def db15 : List Contact :=
  (List.range 15).map (fun i => { contactAlice with id := i + 1 })

/-!
Theorems.  Helper lemmas come first, then one theorem per claim of the
specification, each with (where needed) its witness or counterexample.
-/

/-- Helper: the declarative constructor rejects the schema keyword
`birthday` (the mapped column is `birthdate`), so every create call
fails with the same TypeError, whatever the stored rows and the body. -/
theorem create_contact_errors (db : List Contact) (body : ContactSchema) :
    create_contact db body =
      Except.error "birthday is an invalid keyword argument for Contact" := rfl

theorem lowerN_ne_meta (n : Nat) (h : n ≠ 37 ∧ n ≠ 95 ∧ n ≠ 92) :
    lowerN n ≠ 37 ∧ lowerN n ≠ 95 ∧ lowerN n ≠ 92 := by
  unfold lowerN; split <;> omega

theorem cleanCodes_lowerCodes (s : String) (h : noLikeMeta s) :
    cleanCodes (lowerCodes s) := by
  intro n hn
  rcases List.mem_map.mp hn with ⟨c, hc, rfl⟩
  exact lowerN_ne_meta c.toNat (h c hc)

theorem anySuffix_congr (g h : List Nat → Bool) (hg : ∀ u, g u = h u) (t : List Nat) :
    anySuffix g t = anySuffix h t := by
  induction t with
  | nil => simp [anySuffix, hg]
  | cons b t2 ih => simp [anySuffix, hg, ih]

theorem anySuffix_isEmpty (t : List Nat) :
    anySuffix (fun u : List Nat => u.isEmpty) t = true := by
  induction t with
  | nil => rfl
  | cons b t2 ih => simp [anySuffix, ih]

theorem likeMatch_percent_only (t : List Nat) : likeMatch [37] t = true := by
  simp [likeMatch, anySuffix_isEmpty]

theorem likeMatch_append_percent (s : List Nat) (hs : cleanCodes s) (t : List Nat) :
    likeMatch (s ++ [37]) t = isPrefOf s t := by
  induction s generalizing t with
  | nil => simp [likeMatch_percent_only, isPrefOf]
  | cons c s ih =>
    have hc := hs c (List.mem_cons_self c s)
    have hs2 : cleanCodes s := fun n hn => hs n (List.mem_cons_of_mem c hn)
    cases t with
    | nil => simp [likeMatch, isPrefOf, hc.1, hc.2.1, hc.2.2]
    | cons d t2 => simp [likeMatch, isPrefOf, hc.1, hc.2.1, hc.2.2, ih hs2]

theorem isPrefOf_nil_right (n : List Nat) : isPrefOf n [] = n.isEmpty := by
  cases n <;> rfl

theorem subOf_eq_anySuffix (n t : List Nat) : subOf n t = anySuffix (isPrefOf n) t := by
  induction t with
  | nil => simp [subOf, anySuffix, isPrefOf_nil_right]
  | cons b t2 ih => simp [subOf, anySuffix, ih]

theorem likeMatch_wrapped (s : List Nat) (hs : cleanCodes s) (t : List Nat) :
    likeMatch (37 :: (s ++ [37])) t = subOf s t := by
  have h1 : likeMatch (37 :: (s ++ [37])) t = anySuffix (likeMatch (s ++ [37])) t := by
    simp [likeMatch]
  rw [h1, anySuffix_congr (likeMatch (s ++ [37])) (isPrefOf s)
    (fun u => likeMatch_append_percent s hs u), ← subOf_eq_anySuffix]

theorem subOf_nil_left (t : List Nat) : subOf [] t = true := by
  cases t <;> simp [subOf, isPrefOf, List.isEmpty]

theorem lowerCodes_append (a b : String) :
    lowerCodes (a ++ b) = lowerCodes a ++ lowerCodes b := by
  unfold lowerCodes
  rw [String.data_append a b, List.map_append]

/-- For a metacharacter-free filter text, the code side
`ILIKE percent-wrapped` test coincides with the spec-side case-insensitive
substring test. -/
theorem pgILike_eq_ciSubstring (hay s : String) (hs : noLikeMeta s) :
    pgILike hay ("%" ++ s ++ "%") = ciSubstring s hay := by
  unfold pgILike ciSubstring
  rw [lowerCodes_append, lowerCodes_append]
  have h37 : lowerCodes "%" = [37] := rfl
  rw [h37]
  exact likeMatch_wrapped (lowerCodes s) (cleanCodes_lowerCodes s hs) (lowerCodes hay)

theorem ciSubstring_empty_needle (x : String) : ciSubstring "" x = true := by
  unfold ciSubstring
  have h : lowerCodes "" = [] := rfl
  rw [h, subOf_nil_left]

theorem applyOptFilter_eq (field : Contact → String) (f : Option String)
    (l : List Contact) (h : cleanOptFilter f) :
    applyOptFilter field f l = l.filter (fun c => specFilterMatch f (field c)) := by
  cases f with
  | none => simp [applyOptFilter, specFilterMatch]
  | some s =>
    by_cases hs : s = ""
    · subst hs
      simp [applyOptFilter, specFilterMatch, ciSubstring_empty_needle]
    · simp only [applyOptFilter, specFilterMatch, if_neg hs]
      exact List.filter_congr (fun c _ => pgILike_eq_ciSubstring (field c) s h)

theorem search_contacts_eq_filter (db : List Contact) (f1 f2 f3 : Option String)
    (h1 : cleanOptFilter f1) (h2 : cleanOptFilter f2) (h3 : cleanOptFilter f3) :
    search_contacts db f1 f2 f3 =
      db.filter (fun c => specFilterMatch f1 c.first_name &&
        (specFilterMatch f2 c.last_name && specFilterMatch f3 c.email)) := by
  unfold search_contacts
  rw [applyOptFilter_eq Contact.first_name f1 db h1,
    applyOptFilter_eq Contact.last_name f2 _ h2,
    applyOptFilter_eq Contact.email f3 _ h3,
    List.filter_filter, List.filter_filter]
  refine List.filter_congr (fun c _ => ?_)
  cases specFilterMatch f1 c.first_name <;> cases specFilterMatch f2 c.last_name <;>
    cases specFilterMatch f3 c.email <;> rfl

theorem setattrPersist_id (c : Contact) (k : String) (v : Val) :
    (setattrPersist c k v).id = c.id := by
  unfold setattrPersist
  split <;> rfl

theorem foldl_setattrPersist_id (kvs : List (String × Val)) (c : Contact) :
    (kvs.foldl (fun acc kv => setattrPersist acc kv.1 kv.2) c).id = c.id := by
  induction kvs generalizing c with
  | nil => rfl
  | cons kv rest ih => rw [List.foldl_cons, ih, setattrPersist_id]

/-- C1: for every set of stored contacts and every create request whose
email or phone equals that of an already-stored contact, the create
operation fails and the stored contacts are unchanged — no duplicate
row is inserted.  (The failure is a TypeError from the column-name
mismatch, raised before the insert, so nothing is ever written; the
unique constraints of `flushNew` would reject the duplicate had the
constructor succeeded.) -/
theorem create_duplicate_fails (db : List Contact) (body : ContactSchema)
    (_dup : ∃ c ∈ db, c.email = body.email ∨ c.phone = body.phone) :
    (∃ e, create_contact db body = Except.error e) ∧ createState db body = db := by
  refine ⟨⟨_, create_contact_errors db body⟩, ?_⟩
  unfold createState
  rw [create_contact_errors]

/-- Witness for C1 at a concrete duplicate request. -/
theorem create_duplicate_fails_witness :
    (∃ c ∈ [contactAlice], c.email = bodyAlice.email ∨ c.phone = bodyAlice.phone) ∧
      ((∃ e, create_contact [contactAlice] bodyAlice = Except.error e) ∧
        createState [contactAlice] bodyAlice = [contactAlice]) :=
  ⟨⟨contactAlice, List.mem_singleton.mpr rfl, Or.inl rfl⟩,
    create_duplicate_fails [contactAlice] bodyAlice
      ⟨contactAlice, List.mem_singleton.mpr rfl, Or.inl rfl⟩⟩

/-- C2 (code bug): create can never succeed — for every database and
every body, `Contact(**body.model_dump())` raises a TypeError on the
keyword `birthday`, because the mapped column in `src/entity/models.py`
is named `birthdate`.  So create followed by getById is impossible: no
record is created and no identifier returned. -/
theorem create_never_succeeds (db : List Contact) (body : ContactSchema) :
    create_contact db body =
      Except.error "birthday is an invalid keyword argument for Contact" :=
  create_contact_errors db body

/-- C3 (code bug): a partial update supplying only `birthday` leaves
the stored row entirely unchanged — `setattr(contact, "birthday", v)`
writes a transient attribute, not the mapped column `birthdate` — while
the claim requires the birthday to change to the supplied value. -/
theorem update_birthday_not_persisted :
    update_contact [contactAlice] 1 updateBirthdayOnly = ([contactAlice], some contactAlice) ∧
      contactAlice.birthdate ≠ { year := 2000, month := 1, day := 2 } :=
  ⟨rfl, by decide⟩

/-- C4 counterexample: with filter text `a_` the stored first name `ab`
is returned, although `a_` is not a case-insensitive substring of `ab`:
the `_` is a LIKE single-character wildcard, so search is not substring
search for every filter, as the claim states. -/
theorem search_wildcard_counterexample :
    search_contacts [contactAB] (some "a_") none none = [contactAB] ∧
      ciSubstring "a_" contactAB.first_name = false :=
  ⟨rfl, rfl⟩

/-- C4 (amended): for supplied filters containing no SQL LIKE
metacharacter (`%`, `_`, `\`), search returns exactly the contacts for
which every supplied filter is a case-insensitive substring of the
corresponding field, with absent filters imposing no restriction
(AND semantics); search with no filters returns all contacts. -/
theorem search_is_ci_substring_filter (db : List Contact) (f1 f2 f3 : Option String)
    (h1 : cleanOptFilter f1) (h2 : cleanOptFilter f2) (h3 : cleanOptFilter f3) :
    search_contacts db f1 f2 f3 =
      db.filter (fun c => specFilterMatch f1 c.first_name &&
        (specFilterMatch f2 c.last_name && specFilterMatch f3 c.email)) ∧
    search_contacts db none none none = db :=
  ⟨search_contacts_eq_filter db f1 f2 f3 h1 h2 h3, rfl⟩

/-- Witness for C4 at the spec §8 example: `search(first_name="ali")`
on the stored Alice and Bob returns only Alice. -/
theorem search_is_ci_substring_filter_witness :
    (search_contacts [contactAlice, contactBob] (some "ali") none none =
      [contactAlice, contactBob].filter (fun c => specFilterMatch (some "ali") c.first_name &&
        (specFilterMatch none c.last_name && specFilterMatch none c.email)) ∧
      search_contacts [contactAlice, contactBob] none none none =
        [contactAlice, contactBob]) ∧
    search_contacts [contactAlice, contactBob] (some "ali") none none = [contactAlice] :=
  ⟨search_is_ci_substring_filter [contactAlice, contactBob] (some "ali") none none
    (by decide) trivial trivial, rfl⟩

/-- C5 (code bug): the upcoming-birthdays query refers to
`Contact.birthday`, but the mapped column is named `birthdate`, so for
every database, date and day count the call raises AttributeError
instead of returning the day-of-month window ordered ascending. -/
theorem upcoming_birthdays_raises (db : List Contact) (today : PyDate) (days : Nat) :
    get_upcoming_birthdays db today days =
      Except.error "type object Contact has no attribute birthday" := rfl

/-- C6: for every identifier, delete followed by getById on that
identifier returns not-found, and the delete endpoint responds 204
with an empty body whether or not the identifier was present. -/
theorem delete_then_get_not_found (db : List Contact) (i : Nat) :
    get_contact_by_id ((remove_contact db i).1) i = none ∧
      (delete_contact_route db i).1 = { status := 204, body := none } := by
  constructor
  · unfold remove_contact
    cases hfind : get_contact_by_id db i with
    | none => exact hfind
    | some c =>
      simp only
      unfold get_contact_by_id
      rw [List.find?_eq_none]
      intro x hx
      have hmem := (List.mem_filter.mp hx).2
      simp only [Bool.not_eq_eq_eq_not, Bool.not_true] at hmem
      simp [hmem]
  · rfl

/-- C7: a page holds at most `limit` contacts; the page elements are
the stored rows shifted by `offset` in storage order; on 15 stored
contacts, limit 10 offset 0 yields exactly 10 and limit 10 offset 10
the remaining 5; and the route boundary accepts exactly limit in
[10,100] and offset ≥ 0. -/
theorem pagination_behaviour (db : List Contact) (limit offset : Nat) :
    (get_contacts db limit offset).length ≤ limit ∧
    (∀ k : Nat, (get_contacts db limit offset)[k]? =
      if k < limit then db[offset + k]? else none) ∧
    (db.length = 15 →
      (get_contacts db 10 0).length = 10 ∧ (get_contacts db 10 10).length = 5) ∧
    (∀ l o : Int, listParamsValid l o = true ↔ (10 ≤ l ∧ l ≤ 100 ∧ 0 ≤ o)) := by
  refine ⟨?_, ?_, ?_, ?_⟩
  · unfold get_contacts
    rw [List.length_take]
    exact Nat.min_le_left _ _
  · intro k
    unfold get_contacts
    rw [List.getElem?_take, List.getElem?_drop]
  · intro h15
    unfold get_contacts
    rw [List.length_take, List.length_drop, List.length_take, List.length_drop, h15]
    omega
  · intro l o
    simp only [listParamsValid, Bool.and_eq_true, decide_eq_true_eq]
    omega

/-- Witness for C7 on a concrete table of 15 contacts. -/
theorem pagination_behaviour_witness :
    ((get_contacts db15 10 0).length = 10 ∧ (get_contacts db15 10 10).length = 5) ∧
      (get_contacts db15 10 3)[2]? = db15[5]? ∧
      listParamsValid 10 0 = true :=
  ⟨(pagination_behaviour db15 10 0).2.2.1 (by decide),
    by rw [(pagination_behaviour db15 10 3).2.1 2]; rfl,
    ((pagination_behaviour db15 10 0).2.2.2 10 0).mpr (by omega)⟩

/-- C8 (code bug): on an empty result the search endpoint responds 404
as claimed, but on a non-empty result it responds 500, not 200: every
row fails `ContactResponse` validation because the required field
`birthday` does not resolve on a `Contact` row (the column is
`birthdate`). -/
theorem search_route_500_on_nonempty :
    search_route [contactAlice] none none none = { status := 500, body := none } ∧
      search_route [] none none none = { status := 404, body := none } :=
  ⟨rfl, rfl⟩

/-- C9: the update operation never changes the identifier of any stored contact
— the update schema exposes no identifier field and the
update loop assigns only schema fields. -/
theorem update_preserves_ids (db : List Contact) (i : Nat) (body : ContactUpdateSchema) :
    ((update_contact db i body).1).map (fun c => c.id) = db.map (fun c => c.id) := by
  unfold update_contact
  cases hfind : get_contact_by_id db i with
  | none => rfl
  | some c =>
    simp only
    rw [List.map_map]
    refine List.map_congr_left (fun x _ => ?_)
    simp only [Function.comp_apply]
    by_cases hx : x.id == i
    · have hc : c.id = i := by
        have := List.find?_some hfind
        simpa using this
      have hx2 : x.id = i := by simpa using hx
      rw [if_pos hx, foldl_setattrPersist_id, hc, hx2]
    · rw [if_neg hx]

/-- C10: search filters supplied as empty strings are treated exactly
like absent filters — the code tests truthiness — so the search with
three empty-string filters equals the unfiltered search, which returns
all contacts. -/
theorem empty_string_filters_return_all (db : List Contact) :
    search_contacts db (some "") (some "") (some "") =
      search_contacts db none none none ∧
    search_contacts db none none none = db :=
  ⟨rfl, rfl⟩
